import Mathlib

/-!
# Verification of the TikTokDownloader resolution-and-retrieval pipeline

Shallow embedding of the two entry points of the repository
(`src/server.mjs` and `src/index.mjs`).  Network effects (the connectivity
probe fetch, each provider GET, each CDN HEAD probe, the final media GET)
are modelled by explicit environment values describing the responses the
network would deliver; every function of the source that inspects such a
response becomes a pure Lean function of that environment.

JavaScript string truthiness (a string is falsy iff it is empty or the
field is absent) is modelled on `Option String`.
-/

/-- Boolean test that the list `pat` occurs at the very front of `s`
(character-by-character comparison).  Used to model JavaScript
`String.prototype.includes` and regex scanning. -/
def listHasPre : List Char → List Char → Bool
  | [], _ => true
  | _ :: _, [] => false
  | p :: ps, c :: cs => p = c && listHasPre ps cs

/-- Model of JavaScript `s.includes(pat)`: `pat` occurs (contiguously,
case-sensitively) somewhere in `s`. -/
def strContains (s pat : String) : Bool :=
  (List.range (s.length + 1)).any fun i => listHasPre pat.toList (s.toList.drop i)

/-- The character class `[a-zA-Z0-9\-_]` of the sanitization regex in
`src/server.mjs` line 94 / `src/index.mjs` line 155. -/
def allowedChar (c : Char) : Bool :=
  c.isAlpha || c.isDigit || c = '-' || c = '_'

/-- One step of `title.replace(/[^a-zA-Z0-9\-_]/g, '_')`: a character
outside the class is replaced by an underscore. -/
def sanitizedChar (c : Char) : Char :=
  if allowedChar c then c else '_'

/-- Model of `title.replace(/[^a-zA-Z0-9\-_]/g, '_').substring(0, 50)`
(`src/server.mjs` line 94, `src/index.mjs` line 155). -/
def sanitizeTitle (title : String) : String :=
  List.asString ((title.toList.map sanitizedChar).take 50)

/-- Scan for the JavaScript regex `/video\/(\d+)/`: the first position at
which the literal `video/` is followed by at least one decimal digit;
the capture is the maximal digit run after the slash.  A position where
`video/` matches but no digit follows is skipped, as regex search would. -/
def videoIdAt : List Char → Option String
  | [] => none
  | c :: rest =>
    if listHasPre "video/".toList (c :: rest) then
      let ds := ((c :: rest).drop 6).takeWhile Char.isDigit
      if ds.isEmpty then videoIdAt rest else some (List.asString ds)
    else videoIdAt rest

/-- Model of `url.match(/video\/(\d+)/)?.[1]` (`src/server.mjs` line 93,
`src/index.mjs` lines 82 and 154). -/
def extractVideoId (url : String) : Option String :=
  videoIdAt url.toList

/-- Model of `url.match(/video\/(\d+)/)?.[1] || 'tiktok_video'`. -/
def videoIdOf (url : String) : String :=
  (extractVideoId url).getD "tiktok_video"

/-- The base name `${sanitizedTitle}_${videoId}.mp4` of the destination
file (`src/server.mjs` line 95, `src/index.mjs` line 156). -/
def destFileName (title url : String) : String :=
  sanitizeTitle title ++ "_" ++ videoIdOf url ++ ".mp4"

/-! ## Provider payloads and the resolver chain (tryTikWmAPI) -/

/-- The `data` object of a tikwm payload: `data.play` and `data.title`.
`none` models an absent field; `some ""` an empty string value. -/
structure TikWmData where
  play : Option String
  title : Option String
deriving DecidableEq

/-- A parsed provider JSON payload: optional `data` object and optional
top-level `msg` string. -/
structure TikWmPayload where
  data : Option TikWmData
  msg : Option String
deriving DecidableEq

/-- What the network delivered for one endpoint of the chain:
`fetchError` models a thrown fetch / timeout / JSON-parse failure (the
`catch { continue }` path); `http ok payload` a completed response with
its `res.ok` flag and parsed body. -/
inductive EndpointResponse where
  | fetchError
  | http (ok : Bool) (payload : TikWmPayload)
deriving DecidableEq

/-- Outcome of processing a single endpoint response inside the loop of
`tryTikWmAPI` (`src/server.mjs` lines 30-61). -/
inductive EndpointStep where
  | resolved (videoUrl : String) (title : String)
  | isPrivate
  | notFound
  | abstain
deriving DecidableEq

/-- Model of `data.data.title || 'tiktok_video'` (`src/server.mjs` line 46):
the payload title when present and truthy, else the placeholder. -/
def titleOr : Option String → String
  | some t => if t ≠ "" then t else "tiktok_video"
  | none => "tiktok_video"

/-- The `if (data.msg)` classification block of `src/server.mjs`
lines 51-57: case-sensitive `includes` checks for "private"/"friends",
then "not found"/"deleted"; anything else falls through to the next
endpoint. -/
def msgStep : Option String → EndpointStep
  | none => .abstain
  | some m =>
    if m ≠ "" then
      if strContains m "private" || strContains m "friends" then .isPrivate
      else if strContains m "not found" || strContains m "deleted" then .notFound
      else .abstain
    else .abstain

/-- Body of one iteration of the endpoint loop of `tryTikWmAPI` in
`src/server.mjs`: non-ok and thrown responses abstain; a truthy
`data.data.play` resolves (placing the play-URL check before the `msg`
classification); otherwise the `msg` field is classified. -/
def tryEndpoint : EndpointResponse → EndpointStep
  | .fetchError => .abstain
  | .http ok p =>
    if ok then
      match p.data with
      | some d =>
        match d.play with
        | some play =>
          if play ≠ "" then .resolved play (titleOr d.title) else msgStep p.msg
        | none => msgStep p.msg
      | none => msgStep p.msg
    else .abstain

/-- Result of `tryTikWmAPI` in `src/server.mjs`: the JavaScript function
returns `{videoUrl, title}`, the sentinel strings `'PRIVATE'` /
`'NOT_FOUND'`, or `null`. -/
inductive TikWmResult where
  | videoData (videoUrl : String) (title : String)
  | PRIVATE
  | NOT_FOUND
  | noResult
deriving DecidableEq

/-- Model of `tryTikWmAPI` of `src/server.mjs` (lines 24-64) over the list of
responses the endpoints would deliver, in chain order: first
`Resolved` / `PRIVATE` / `NOT_FOUND` wins, abstention continues,
exhaustion returns `null`. -/
def tryTikWmAPI : List EndpointResponse → TikWmResult
  | [] => .noResult
  | r :: rest =>
    match tryEndpoint r with
    | .resolved u t => .videoData u t
    | .isPrivate => .PRIVATE
    | .notFound => .NOT_FOUND
    | .abstain => tryTikWmAPI rest

/-- Model of `tryTikWmAPI` of `src/index.mjs` (lines 37-75): same loop but with no
`msg` classification at all — any payload without a truthy play URL
abstains; returns `{videoUrl, title}` or `null`. -/
def tryTikWmAPIIndex : List EndpointResponse → Option (String × String)
  | [] => none
  | r :: rest =>
    match r with
    | .fetchError => tryTikWmAPIIndex rest
    | .http ok p =>
      if ok then
        match p.data with
        | some d =>
          match d.play with
          | some play =>
            if play ≠ "" then some (play, titleOr d.title)
            else tryTikWmAPIIndex rest
          | none => tryTikWmAPIIndex rest
        | none => tryTikWmAPIIndex rest
      else tryTikWmAPIIndex rest

/-! ## Connectivity probe, fallback prober, retrieval, pipelines -/

/-- What the probe fetch to `https://httpbin.org/status/200` did:
resolved with the given `res.ok` flag, or threw. -/
inductive ProbeFetch where
  | ok (responseOk : Bool)
  | threw
deriving DecidableEq

/-- Model of `testNetworkConnectivity` of `src/server.mjs` (lines 13-22):
`return testResponse.ok` on a completed fetch, `return false` on an
exception. -/
def testNetworkConnectivity : ProbeFetch → Bool
  | .ok r => r
  | .threw => false

/-- Model of `testNetworkConnectivity` of `src/index.mjs` (lines 19-35): returns
`true` when the fetch completed with `ok`, `false` on an exception, and
— because the `if (testResponse.ok)` branch has no `else` and the
function body ends — `undefined` (modelled as `none`) when the fetch
completed with a non-ok status. -/
def testNetworkConnectivityIndex : ProbeFetch → Option Bool
  | .ok r => if r then some true else none
  | .threw => some false

/-- Result of one HEAD probe in `tryAlternativeAPI` (`src/index.mjs`
lines 95-111): a completed response with its `ok` flag and
`content-type` header (absent header modelled as `none`), or a throw. -/
inductive HeadResult where
  | response (ok : Bool) (contentType : Option String)
  | threw
deriving DecidableEq

/-- Model of `response.headers.get('content-type')?.includes('video')`: an absent
header makes the optional chain `undefined`, which is falsy. -/
def ctIncludesVideo : Option String → Bool
  | none => false
  | some ct => strContains ct "video"

/-- Acceptance test applied to one HEAD probe result:
`response.ok && response.headers.get('content-type')?.includes('video')`;
a thrown request is skipped. -/
def headAccept : HeadResult → Bool
  | .threw => false
  | .response ok ct => ok && ctIncludesVideo ct

/-- The two candidate CDN URLs of `src/index.mjs` lines 90-93. -/
def cdnCandidate1 (videoId : String) : String :=
  "https://v16-webapp.tiktok.com/video/tos/maliva/" ++ videoId ++ "/"

/-- Second candidate CDN URL. -/
def cdnCandidate2 (videoId : String) : String :=
  "https://v19-webapp.tiktok.com/video/tos/maliva/" ++ videoId ++ "/"

/-- The `possibleVideoUrls` list of `src/index.mjs`. -/
def candidateUrls (videoId : String) : List String :=
  [cdnCandidate1 videoId, cdnCandidate2 videoId]

/-- The sequential HEAD loop of `tryAlternativeAPI`: first accepted
candidate wins, with title `tiktok_<id>`; otherwise `null`.  `heads`
gives the network's answer per candidate URL. -/
def probeCandidates : List String → String → (String → HeadResult) → Option (String × String)
  | [], _, _ => none
  | c :: rest, videoId, heads =>
    if headAccept (heads c) then some (c, "tiktok_" ++ videoId)
    else probeCandidates rest videoId heads

/-- Model of `tryAlternativeAPI` of `src/index.mjs` (lines 77-118): extract the
numeric video id (the throw on a failed match is caught and yields
`null`), then probe the candidate CDN URLs sequentially. -/
def tryAlternativeAPI (url : String) (heads : String → HeadResult) : Option (String × String) :=
  match extractVideoId url with
  | none => none
  | some videoId => probeCandidates (candidateUrls videoId) videoId heads

/-- The resolution phase of `downloadTikTok` in `src/index.mjs`
(lines 132-137): the provider chain first, and `tryAlternativeAPI` only
when it returned `null`. -/
def resolveIndex (url : String) (chain : List EndpointResponse)
    (heads : String → HeadResult) : Option (String × String) :=
  match tryTikWmAPIIndex chain with
  | some vd => some vd
  | none => tryAlternativeAPI url heads

/-- What the network delivered for the final media GET: a non-ok
response with its status, a stream that broke mid-transfer (the
`pipeline` rejection, message as caught), or a fully streamed body. -/
inductive RetrievalResult where
  | httpError (status : Nat) (statusText : String)
  | streamError (cause : String)
  | ok
deriving DecidableEq

/-- The network environment one `downloadTikTokVideo` call runs in:
the probe fetch outcome, the per-endpoint provider responses in chain
order, the HEAD-probe oracle (present in the environment but never
consulted by `src/server.mjs`, which has no fallback prober), and the
media retrieval outcome. -/
structure ServerEnv where
  probe : ProbeFetch
  chain : List EndpointResponse
  heads : String → HeadResult
  retrieval : RetrievalResult

/-- The outcome type: `downloadTikTokVideo` returns `{success:true, fileName, fullPath,
title}` or `{success:false, error}`. -/
inductive DownloadOutcome where
  | ok (fileName : String) (fullPath : String) (title : String)
  | err (error : String)
deriving DecidableEq

/-- The `success` field of a `DownloadOutcome`. -/
def DownloadOutcome.success : DownloadOutcome → Bool
  | .ok _ _ _ => true
  | .err _ => false

/-- Model of `downloadTikTokVideo` of `src/server.mjs` (lines 66-124): probe,
chain, filename derivation, retrieval; every `throw` is caught by the
surrounding `try` and becomes `{success:false, error: message}`. -/
def downloadTikTokVideo (url dlPath : String) (env : ServerEnv) : DownloadOutcome :=
  if testNetworkConnectivity env.probe then
    match tryTikWmAPI env.chain with
    | .PRIVATE => .err "This video is private or friends-only and cannot be downloaded"
    | .NOT_FOUND => .err "Video not found. It may have been deleted or the URL is incorrect"
    | .noResult => .err "Failed to fetch video data from all APIs"
    | .videoData _ title =>
      match env.retrieval with
      | .httpError status stext =>
        .err ("Video download failed: " ++ toString status ++ " " ++ stext)
      | .streamError cause => .err cause
      | .ok =>
        .ok (destFileName title url) (dlPath ++ "/" ++ destFileName title url) title
  else .err "Network connectivity issues detected"

/-! ## Batch orchestrator (`/api/download` handler, `src/server.mjs`
lines 188-203) -/

/-- One entry of the `results` array: `{url: url.trim(), ...result}`. -/
structure BatchEntry where
  url : String
  outcome : DownloadOutcome
deriving DecidableEq

/-- JavaScript `url.trim()`: whitespace removed from both ends. -/
def jsTrim (s : String) : String :=
  List.asString
    (((s.toList.dropWhile Char.isWhitespace).reverse.dropWhile Char.isWhitespace).reverse)

/-- One iteration of the `for (const url of urls)` loop: a URL that is
non-blank and contains `tiktok.com` is handed to the download function
(with the URL trimmed); anything else gets
`{success:false, error:'Invalid TikTok URL'}` without the download
function ever being consulted. -/
def processUrl (download : String → DownloadOutcome) (url : String) : BatchEntry :=
  if jsTrim url ≠ "" && strContains url "tiktok.com" then
    ⟨jsTrim url, download (jsTrim url)⟩
  else
    ⟨jsTrim url, .err "Invalid TikTok URL"⟩

/-- The whole loop: one entry pushed per input URL, in input order. -/
def downloadAll (urls : List String) (download : String → DownloadOutcome) : List BatchEntry :=
  urls.map (processUrl download)

/-- Model of JavaScript `s.toLowerCase()` (ASCII range), used only to
state case-insensitivity properties about the classifier. -/
def lowerStr (s : String) : String :=
  List.asString (s.toList.map Char.toLower)

/-! ## Helper lemmas -/

theorem listHasPre_append_self (p r : List Char) : listHasPre p (p ++ r) = true := by
  induction p with
  | nil => rfl
  | cons c cs ih => simp [listHasPre, ih]

/-- A string contains any middle segment of a three-way decomposition of
its character list. -/
theorem strContains_of_parts (s pat : String) (x y : List Char)
    (h : s.toList = x ++ (pat.toList ++ y)) : strContains s pat = true := by
  unfold strContains
  rw [List.any_eq_true]
  refine ⟨x.length, ?_, ?_⟩
  · rw [List.mem_range]
    have hs : s.length = s.toList.length := rfl
    have : s.toList.length = x.length + (pat.toList.length + y.length) := by
      rw [h]; simp
    omega
  · rw [h, List.drop_left]
    exact listHasPre_append_self _ _

theorem sanitizeTitle_toList (title : String) :
    (sanitizeTitle title).toList = (title.toList.map sanitizedChar).take 50 := rfl

theorem sanitizeTitle_length (title : String) :
    (sanitizeTitle title).length = min 50 title.length := by
  have h : (sanitizeTitle title).length = ((title.toList.map sanitizedChar).take 50).length := rfl
  rw [h, List.length_take, List.length_map]
  rfl

/-! ## Claim theorems -/

/-- C1 counterexample: the sanitizer does not strip characters outside
`[A-Za-z0-9_-]` — it replaces each of them with an underscore — so
title "Hello! World??" with id 123 produces the destination name
"Hello__World___123.mp4", not "Hello_World_123.mp4" as the claim
states. -/
theorem destFileName_not_stripped :
    destFileName "Hello! World??" "https://www.tiktok.com/@user/video/123"
      = "Hello__World___123.mp4" ∧
    destFileName "Hello! World??" "https://www.tiktok.com/@user/video/123"
      ≠ "Hello_World_123.mp4" := by decide

/-- C1 (amended): the Descriptor Deriver replaces every character
outside `[A-Za-z0-9_-]` with an underscore, truncates the result to 50
characters, and appends `_<id>.mp4`; title "Hello! World??" with id
"123" yields "Hello__World___123.mp4", and a title of 50 or more
characters (in particular a 300-character one) is truncated to exactly
50 characters before the id suffix. -/
theorem descriptorDeriver_spec (title url : String) :
    (sanitizeTitle title).length ≤ 50 ∧
    (∀ c ∈ (sanitizeTitle title).toList, allowedChar c = true) ∧
    (50 ≤ title.length → (sanitizeTitle title).length = 50) ∧
    destFileName title url = sanitizeTitle title ++ "_" ++ videoIdOf url ++ ".mp4" ∧
    destFileName "Hello! World??" "https://www.tiktok.com/@user/video/123"
      = "Hello__World___123.mp4" := by
  refine ⟨?_, ?_, ?_, rfl, by decide⟩
  · rw [sanitizeTitle_length]; exact min_le_left _ _
  · intro c hc
    rw [sanitizeTitle_toList] at hc
    have hc2 : c ∈ title.toList.map sanitizedChar := (List.take_sublist _ _).subset hc
    rcases List.mem_map.mp hc2 with ⟨a, _, rfl⟩
    by_cases ha : allowedChar a = true
    · have h : sanitizedChar a = a := by simp [sanitizedChar, ha]
      rw [h]; exact ha
    · have h : sanitizedChar a = '_' := by simp [sanitizedChar, ha]
      rw [h]; decide
  · intro h
    rw [sanitizeTitle_length]
    omega

set_option maxRecDepth 4096 in
/-- C1 witness: a 300-character title is truncated to exactly 50
characters. -/
theorem descriptorDeriver_spec_witness :
    50 ≤ (String.mk (List.replicate 300 'a')).length ∧
    (sanitizeTitle (String.mk (List.replicate 300 'a'))).length = 50 :=
  ⟨by decide,
   (descriptorDeriver_spec (String.mk (List.replicate 300 'a')) "u").2.2.1 (by decide)⟩

/-- C2 counterexample: the classifier is case-sensitive, not
case-insensitive.  "This video is Private" contains "private" when
compared case-insensitively, yet the classifier abstains (does not
classify it as Private) and the chain continues to the next
endpoint. -/
theorem classifier_case_counterexample :
    strContains (lowerStr "This video is Private") "private" = true ∧
    msgStep (some "This video is Private") ≠ EndpointStep.isPrivate ∧
    msgStep (some "This video is Private") = EndpointStep.abstain ∧
    tryTikWmAPI [.http true ⟨none, some "This video is Private"⟩] = .noResult := by
  decide

/-- C2 (amended): the Error Classifier matches case-sensitive
substrings: presence of "private" or "friends" yields Private;
otherwise presence of "not found" or "deleted" yields NotFound;
otherwise it abstains and the chain continues; and on the first Private
or NotFound classification the chain stops with that result, whatever
the remaining endpoints would have answered (`rest` is arbitrary and
the result does not depend on it). -/
theorem errorClassifier_spec (m : String) (rest : List EndpointResponse) :
    (strContains m "private" = true ∨ strContains m "friends" = true →
      msgStep (some m) = .isPrivate) ∧
    (strContains m "private" = false → strContains m "friends" = false →
      (strContains m "not found" = true ∨ strContains m "deleted" = true) →
      msgStep (some m) = .notFound) ∧
    (strContains m "private" = false → strContains m "friends" = false →
      strContains m "not found" = false → strContains m "deleted" = false →
      msgStep (some m) = .abstain) ∧
    (msgStep (some m) = .isPrivate →
      tryTikWmAPI (.http true ⟨none, some m⟩ :: rest) = .PRIVATE) ∧
    (msgStep (some m) = .notFound →
      tryTikWmAPI (.http true ⟨none, some m⟩ :: rest) = .NOT_FOUND) ∧
    (msgStep (some m) = .abstain →
      tryTikWmAPI (.http true ⟨none, some m⟩ :: rest) = tryTikWmAPI rest) := by
  have hstep : tryEndpoint (.http true ⟨none, some m⟩) = msgStep (some m) := rfl
  refine ⟨?_, ?_, ?_, ?_, ?_, ?_⟩
  · intro h
    have hne : m ≠ "" := by
      rcases h with h | h <;> (rintro rfl; revert h; decide)
    rcases h with h | h <;> simp [msgStep, hne, h]
  · intro h1 h2 h3
    have hne : m ≠ "" := by
      rcases h3 with h | h <;> (rintro rfl; revert h; decide)
    rcases h3 with h | h <;> simp [msgStep, hne, h1, h2, h]
  · intro h1 h2 h3 h4
    by_cases hne : m = ""
    · subst hne; decide
    · simp [msgStep, hne, h1, h2, h3, h4]
  · intro h
    rw [tryTikWmAPI, hstep, h]
  · intro h
    rw [tryTikWmAPI, hstep, h]
  · intro h
    rw [tryTikWmAPI, hstep, h]

/-- C2 witness: a message containing "private" is classified Private
and the chain stops there, never consulting the remaining endpoint. -/
theorem errorClassifier_spec_witness :
    msgStep (some "video is private") = EndpointStep.isPrivate ∧
    tryTikWmAPI [.http true ⟨none, some "video is private"⟩, .fetchError]
      = TikWmResult.PRIVATE := by
  have h := errorClassifier_spec "video is private" [.fetchError]
  have h1 := h.1 (Or.inl (by decide))
  exact ⟨h1, h.2.2.2.1 h1⟩

/-- C3 (confirmed): the Batch Orchestrator returns one entry per input
URL, in input order: the result has the same length as the input list,
and the entry at every index `i` is exactly the processing of the input
URL at index `i` — so one item's failure cannot drop, reorder, or
prevent the processing of any other item. -/
theorem batchResult_shape (urls : List String)
    (download : String → DownloadOutcome) (i : Nat) :
    (downloadAll urls download).length = urls.length ∧
    (downloadAll urls download)[i]? = (urls[i]?).map (processUrl download) := by
  constructor
  · simp [downloadAll]
  · simp [downloadAll, List.getElem?_map]

/-- C4 counterexample: for a URL lacking "tiktok.com" the orchestrator
records the error string "Invalid TikTok URL", not "Invalid URL" as the
claim states. -/
theorem invalidUrl_message_counterexample :
    (processUrl (fun _ => DownloadOutcome.err "unused") "not-a-url").outcome
      = DownloadOutcome.err "Invalid TikTok URL" ∧
    DownloadOutcome.err "Invalid TikTok URL" ≠ DownloadOutcome.err "Invalid URL" := by
  decide

/-- C4 (amended): for every input URL lacking the substring
"tiktok.com", the Batch Orchestrator appends
`{success:false, error:"Invalid TikTok URL"}` without making any
network call: the resulting entry is the same whatever the download
function (which is the only thing that touches the network) would have
returned, since that function is never consulted. -/
theorem invalidUrl_no_network (url : String) (download : String → DownloadOutcome)
    (h : strContains url "tiktok.com" = false) :
    processUrl download url = ⟨jsTrim url, .err "Invalid TikTok URL"⟩ := by
  unfold processUrl
  simp [h]

/-- C4 witness: "not-a-url" lacks the host marker, and even with a
download function that would report success the recorded outcome is the
validation failure. -/
theorem invalidUrl_no_network_witness :
    strContains "not-a-url" "tiktok.com" = false ∧
    processUrl (fun _ => DownloadOutcome.ok "f" "p" "t") "not-a-url"
      = ⟨jsTrim "not-a-url", DownloadOutcome.err "Invalid TikTok URL"⟩ :=
  ⟨by decide, invalidUrl_no_network "not-a-url" _ (by decide)⟩

/-- C5 (confirmed): the Provider Resolver Chain iterates endpoint
responses in fixed order; a thrown fetch, a non-2xx response, and an
empty payload each abstain and the chain continues with the remaining
endpoints; an endpoint whose payload carries a (truthy) play URL
terminates the chain with Resolved carrying that endpoint's data; a
chain all of whose endpoints abstain — in particular the exhausted
empty chain — yields Unresolved (`null`).  The last two conjuncts state
abstention-continuation and play-URL resolution for the `index.mjs`
variant of the chain as well. -/
theorem providerChain_spec (r : EndpointResponse) (rest responses : List EndpointResponse)
    (p : TikWmPayload) (play : String) (ttl m : Option String) (u t : String) :
    tryEndpoint .fetchError = .abstain ∧
    tryEndpoint (.http false p) = .abstain ∧
    tryEndpoint (.http true ⟨none, none⟩) = .abstain ∧
    (tryEndpoint r = .abstain → tryTikWmAPI (r :: rest) = tryTikWmAPI rest) ∧
    (play ≠ "" →
      tryEndpoint (.http true ⟨some ⟨some play, ttl⟩, m⟩) = .resolved play (titleOr ttl)) ∧
    (tryEndpoint r = .resolved u t → tryTikWmAPI (r :: rest) = .videoData u t) ∧
    ((∀ x ∈ responses, tryEndpoint x = .abstain) → tryTikWmAPI responses = .noResult) ∧
    tryTikWmAPI ([] : List EndpointResponse) = .noResult ∧
    tryTikWmAPIIndex (.fetchError :: rest) = tryTikWmAPIIndex rest ∧
    (play ≠ "" →
      tryTikWmAPIIndex (.http true ⟨some ⟨some play, ttl⟩, m⟩ :: rest)
        = some (play, titleOr ttl)) := by
  refine ⟨rfl, by simp [tryEndpoint], rfl, ?_, ?_, ?_, ?_, rfl, rfl, ?_⟩
  · intro h; rw [tryTikWmAPI, h]
  · intro h; simp [tryEndpoint, h]
  · intro h; rw [tryTikWmAPI, h]
  · induction responses with
    | nil => intro _; rfl
    | cons x xs ih =>
      intro hall
      rw [tryTikWmAPI, hall x (List.mem_cons_self _ _)]
      exact ih fun y hy => hall y (List.mem_cons_of_mem _ hy)
  · intro h; simp [tryTikWmAPIIndex, h]

/-- C5 witness: endpoint 1 abstains (thrown fetch) and endpoint 2
returns a valid play URL, so the chain resolves with endpoint 2's data;
and a chain whose endpoints all abstain yields `null`. -/
theorem providerChain_spec_witness :
    tryTikWmAPI [.fetchError, .http true ⟨some ⟨some "https://cdn/v.mp4", some "T"⟩, none⟩]
      = TikWmResult.videoData "https://cdn/v.mp4" "T" ∧
    tryTikWmAPI [.fetchError, .http false ⟨none, none⟩] = TikWmResult.noResult := by
  have htl : titleOr (some "T") = "T" := by decide
  have h1 := providerChain_spec .fetchError
    [.http true ⟨some ⟨some "https://cdn/v.mp4", some "T"⟩, none⟩] []
    ⟨none, none⟩ "https://cdn/v.mp4" (some "T") none "https://cdn/v.mp4" "T"
  have h2 := providerChain_spec
    (.http true ⟨some ⟨some "https://cdn/v.mp4", some "T"⟩, none⟩) [] []
    ⟨none, none⟩ "https://cdn/v.mp4" (some "T") none "https://cdn/v.mp4" "T"
  have hres := h2.2.2.2.2.1 (by decide)
  rw [htl] at hres
  have h3 := providerChain_spec .fetchError [] [.fetchError, .http false ⟨none, none⟩]
    ⟨none, none⟩ "x" none none "x" "x"
  refine ⟨?_, h3.2.2.2.2.2.2.1 (by decide)⟩
  rw [h1.2.2.2.1 h1.1]
  exact h2.2.2.2.2.2.1 hres

/-- C6 (confirmed): when the media retrieval GET answers with a non-2xx
status, the pipeline yields `{success:false}` whose error message
contains the HTTP status code; and `success = true` is produced only
when the retrieval stream ran to completion — an interrupted stream (or
any other retrieval outcome short of completion) never reports
success. -/
theorem retrieval_spec (url dlPath : String) (env : ServerEnv) (u t : String)
    (status : Nat) (stext : String) :
    (testNetworkConnectivity env.probe = true →
      tryTikWmAPI env.chain = .videoData u t →
      env.retrieval = .httpError status stext →
      downloadTikTokVideo url dlPath env
        = .err ("Video download failed: " ++ toString status ++ " " ++ stext) ∧
      strContains ("Video download failed: " ++ toString status ++ " " ++ stext)
        (toString status) = true) ∧
    ((downloadTikTokVideo url dlPath env).success = true → env.retrieval = .ok) := by
  constructor
  · intro h1 h2 h3
    constructor
    · simp [downloadTikTokVideo, h1, h2, h3]
    · refine strContains_of_parts _ _ "Video download failed: ".toList
        (" ".toList ++ stext.toList) ?_
      show (("Video download failed: " ++ toString status ++ " " ++ stext) : String).data
        = "Video download failed: ".data ++ ((toString status).data ++ (" ".data ++ stext.data))
      simp [String.data_append, List.append_assoc]
  · intro h
    unfold downloadTikTokVideo at h
    by_cases hp : testNetworkConnectivity env.probe = true
    · rw [if_pos hp] at h
      cases hc : tryTikWmAPI env.chain <;> rw [hc] at h
      · cases hr : env.retrieval <;> rw [hr] at h
        · simp [DownloadOutcome.success] at h
        · simp [DownloadOutcome.success] at h
      · simp [DownloadOutcome.success] at h
      · simp [DownloadOutcome.success] at h
      · simp [DownloadOutcome.success] at h
    · rw [if_neg hp] at h
      simp [DownloadOutcome.success] at h

/-- C6 witness: a 404 on the media GET yields a failure outcome whose
message contains "404". -/
theorem retrieval_spec_witness :
    downloadTikTokVideo "https://www.tiktok.com/@u/video/5" "d"
      { probe := .ok true, chain := [.http true ⟨some ⟨some "u", some "T"⟩, none⟩],
        heads := fun _ => .threw, retrieval := .httpError 404 "Not Found" }
      = .err ("Video download failed: " ++ toString (404 : Nat) ++ " " ++ "Not Found") ∧
    strContains ("Video download failed: " ++ toString (404 : Nat) ++ " " ++ "Not Found")
      "404" = true := by
  have h := (retrieval_spec "https://www.tiktok.com/@u/video/5" "d"
    { probe := .ok true, chain := [.http true ⟨some ⟨some "u", some "T"⟩, none⟩],
      heads := fun _ => .threw, retrieval := .httpError 404 "Not Found" }
    "u" "T" 404 "Not Found").1 rfl (by decide) rfl
  have h404 : toString (404 : Nat) = "404" := by decide
  refine ⟨h.1, ?_⟩
  have h2 := h.2
  rw [h404] at h2
  rw [h404]
  exact h2

/-- C7: the claim is right about the intent and about `server.mjs`
(whose probe returns `testResponse.ok` on a completed fetch and `false`
on an exception, and whose pipeline fails without consulting any
provider when the probe is falsy), but the `index.mjs` probe has a
missing-return slip: when the probe fetch completes with a non-ok
response the function falls off its end and returns `undefined`
(modelled as `none`), not a boolean, contradicting "returns a boolean
reachability value for every execution path". -/
theorem connectivityProbe_bug_eval :
    testNetworkConnectivityIndex (.ok false) = none ∧
    (∀ b : Bool, testNetworkConnectivityIndex (.ok false) ≠ some b) ∧
    testNetworkConnectivityIndex .threw = some false ∧
    testNetworkConnectivityIndex (.ok true) = some true ∧
    testNetworkConnectivity (.ok false) = false ∧
    testNetworkConnectivity .threw = false ∧
    (∀ (url dlPath : String) (chain : List EndpointResponse)
        (heads : String → HeadResult) (ret : RetrievalResult),
      downloadTikTokVideo url dlPath ⟨.threw, chain, heads, ret⟩
        = .err "Network connectivity issues detected" ∧
      downloadTikTokVideo url dlPath ⟨.ok false, chain, heads, ret⟩
        = .err "Network connectivity issues detected") := by
  refine ⟨rfl, by decide, rfl, rfl, rfl, rfl, ?_⟩
  intro url dlPath chain heads ret
  exact ⟨rfl, rfl⟩

/-- C8 counterexample: the two entry points do not both invoke the
Direct-URL Fallback Prober.  In a network environment where every chain
endpoint abstains and the first candidate CDN URL answers the HEAD
probe with 2xx and a video content-type, the `index.mjs` pipeline
resolves through the prober — but `server.mjs`'s `downloadTikTokVideo`,
run in that same environment, fails with "Failed to fetch video data
from all APIs": it has no fallback prober at all and never issues a
HEAD request. -/
theorem fallbackProber_server_counterexample :
    resolveIndex "https://www.tiktok.com/@u/video/111" [.fetchError, .fetchError]
      (fun _ => .response true (some "video/mp4"))
      = some (cdnCandidate1 "111", "tiktok_111") ∧
    downloadTikTokVideo "https://www.tiktok.com/@u/video/111" "d"
      { probe := .ok true, chain := [.fetchError, .fetchError],
        heads := fun _ => .response true (some "video/mp4"), retrieval := .ok }
      = .err "Failed to fetch video data from all APIs" := by
  exact ⟨rfl, rfl⟩

/-- C8 (amended): only the direct-invocation entry point (`index.mjs`)
invokes the Direct-URL Fallback Prober when its chain yields
Unresolved; the service entry point (`server.mjs`) instead fails with
"Failed to fetch video data from all APIs".  The prober extracts the
numeric content ID from the SourceURL (yielding Unresolved overall if
no match), issues sequential HEAD requests to the two candidate CDN
URLs, accepts the first whose response is 2xx with a video
content-type as Resolved with title `tiktok_<id>`, and returns
Unresolved if no candidate succeeds. -/
theorem fallbackProber_spec (url dlPath : String) (chain : List EndpointResponse)
    (heads : String → HeadResult) (id : String) (env : ServerEnv) :
    (tryTikWmAPIIndex chain = none →
      resolveIndex url chain heads = tryAlternativeAPI url heads) ∧
    (extractVideoId url = none → tryAlternativeAPI url heads = none) ∧
    (extractVideoId url = some id → headAccept (heads (cdnCandidate1 id)) = true →
      tryAlternativeAPI url heads = some (cdnCandidate1 id, "tiktok_" ++ id)) ∧
    (extractVideoId url = some id → headAccept (heads (cdnCandidate1 id)) = false →
      headAccept (heads (cdnCandidate2 id)) = true →
      tryAlternativeAPI url heads = some (cdnCandidate2 id, "tiktok_" ++ id)) ∧
    (extractVideoId url = some id → headAccept (heads (cdnCandidate1 id)) = false →
      headAccept (heads (cdnCandidate2 id)) = false →
      tryAlternativeAPI url heads = none) ∧
    (testNetworkConnectivity env.probe = true → tryTikWmAPI env.chain = .noResult →
      downloadTikTokVideo url dlPath env
        = .err "Failed to fetch video data from all APIs") := by
  refine ⟨?_, ?_, ?_, ?_, ?_, ?_⟩
  · intro h; simp [resolveIndex, h]
  · intro h; simp [tryAlternativeAPI, h]
  · intro h h1
    simp [tryAlternativeAPI, h, candidateUrls, probeCandidates, h1]
  · intro h h1 h2
    simp [tryAlternativeAPI, h, candidateUrls, probeCandidates, h1, h2]
  · intro h h1 h2
    simp [tryAlternativeAPI, h, candidateUrls, probeCandidates, h1, h2]
  · intro h1 h2
    simp [downloadTikTokVideo, h1, h2]

/-- C8 witness: with the chain abstaining and the first CDN candidate
answering 2xx video, the `index.mjs` pipeline hands over to the prober
and resolves with `tiktok_<id>`. -/
theorem fallbackProber_spec_witness :
    resolveIndex "https://www.tiktok.com/@u/video/7" [.fetchError]
      (fun _ => .response true (some "video/mp4"))
      = some (cdnCandidate1 "7", "tiktok_" ++ "7") := by
  have h := fallbackProber_spec "https://www.tiktok.com/@u/video/7" "d" [.fetchError]
    (fun _ => .response true (some "video/mp4")) "7"
    ⟨.ok true, [], fun _ => .threw, .ok⟩
  rw [h.1 (by decide)]
  exact h.2.2.1 (by decide) (by decide)

/-- C9 counterexample: a payload whose `title` field is present but
empty does not have its title used — the code's JavaScript truthiness
test (`data.data.title || 'tiktok_video'`) substitutes the placeholder
"tiktok_video", which differs from the payload's (empty) title. -/
theorem emptyTitle_counterexample :
    tryEndpoint (.http true ⟨some ⟨some "https://cdn/v", some ""⟩, none⟩)
      = .resolved "https://cdn/v" "tiktok_video" ∧
    "tiktok_video" ≠ "" := by decide

/-- C9 (amended): for every payload carrying a play URL, resolution
uses the payload's title when it is present and non-empty, and the
placeholder "tiktok_video" when the title is absent or empty; and for
every SourceURL on which the `video\/(\d+)` pattern finds no match, the
derived id degrades to the literal "tiktok_video", so the destination
name becomes `<sanitizedTitle>_tiktok_video.mp4`. -/
theorem titleFallback_spec (play t : String) (m : Option String) (url title : String) :
    (play ≠ "" → t ≠ "" →
      tryEndpoint (.http true ⟨some ⟨some play, some t⟩, m⟩) = .resolved play t) ∧
    (play ≠ "" →
      tryEndpoint (.http true ⟨some ⟨some play, some ""⟩, m⟩)
        = .resolved play "tiktok_video") ∧
    (play ≠ "" →
      tryEndpoint (.http true ⟨some ⟨some play, none⟩, m⟩)
        = .resolved play "tiktok_video") ∧
    (extractVideoId url = none → videoIdOf url = "tiktok_video") ∧
    (extractVideoId url = none →
      destFileName title url = sanitizeTitle title ++ "_tiktok_video.mp4") := by
  refine ⟨?_, ?_, ?_, ?_, ?_⟩
  · intro hp ht; simp [tryEndpoint, titleOr, hp, ht]
  · intro hp; simp [tryEndpoint, titleOr, hp]
  · intro hp; simp [tryEndpoint, titleOr, hp]
  · intro h; simp [videoIdOf, h]
  · intro h
    unfold destFileName
    rw [videoIdOf, h]
    rw [String.append_assoc (sanitizeTitle title) "_" (Option.getD none "tiktok_video")]
    rw [String.append_assoc (sanitizeTitle title)
      ("_" ++ Option.getD none "tiktok_video") ".mp4"]
    rw [String.append_assoc "_" (Option.getD none "tiktok_video") ".mp4"]
    rfl

/-- C9 witness: an empty-title payload resolves with the placeholder,
and a URL without a `video/<digits>` match produces the degraded
destination name. -/
theorem titleFallback_spec_witness :
    tryEndpoint (.http true ⟨some ⟨some "P", some ""⟩, none⟩)
      = .resolved "P" "tiktok_video" ∧
    destFileName "t" "https://www.tiktok.com/@user"
      = sanitizeTitle "t" ++ "_tiktok_video.mp4" := by
  have h := titleFallback_spec "P" "x" none "https://www.tiktok.com/@user" "t"
  exact ⟨h.2.1 (by decide), h.2.2.2.2 (by decide)⟩

/-- C10 (confirmed): a payload carrying both a play URL and a `msg`
field resolves from that payload — the message `msg` is universally
quantified and the result does not depend on it, so the Error
Classifier is never consulted: the play-URL check precedes message
classification within a single endpoint response, and the chain stops
with that endpoint's data. -/
theorem playPrecedence_spec (play msg : String) (ttl : Option String)
    (rest : List EndpointResponse) (hp : play ≠ "") :
    tryEndpoint (.http true ⟨some ⟨some play, ttl⟩, some msg⟩)
      = .resolved play (titleOr ttl) ∧
    tryTikWmAPI (.http true ⟨some ⟨some play, ttl⟩, some msg⟩ :: rest)
      = .videoData play (titleOr ttl) := by
  have h : tryEndpoint (.http true ⟨some ⟨some play, ttl⟩, some msg⟩)
      = .resolved play (titleOr ttl) := by
    simp [tryEndpoint, hp]
  exact ⟨h, by rw [tryTikWmAPI, h]⟩

/-- C10 witness: a payload with a play URL and a message that would
classify as Private still resolves; the chain returns the video data
without consulting the classifier. -/
theorem playPrecedence_spec_witness :
    tryTikWmAPI [.http true ⟨some ⟨some "https://cdn/v", none⟩, some "video is private"⟩,
      .fetchError] = TikWmResult.videoData "https://cdn/v" "tiktok_video" := by
  have h :=
    (playPrecedence_spec "https://cdn/v" "video is private" none [.fetchError] (by decide)).2
  simpa [titleOr] using h
